import Mathlib

/-!
Verification of the Cognito authentication and custodial-wallet module
for the Nakama game backend.

The repository contains two parallel implementations:
* the `runtime` module (`src/runtime/auth.go`, `main.go`, `evm_signer.go`,
  `kms.go`, `errors.go`), modelled in namespace `Runtime`;
* the `cognito_module` (`src/cognito_module/jwt.go` together with the
  module sources `src/unnamed/part_004` and `src/unnamed/part_005`),
  modelled in namespace `CognitoModule`.

Shallow-embedding conventions:
* JWT parsing and signature verification are performed by the external
  `golang-jwt/v5` library.  The structural/signature stage is abstracted
  as an `Option ParseFail` input (the failure cause, if any); the
  library's default claims validation, which both call sites invoke with
  zero leeway, is modelled explicitly: it rejects a token whose `exp`
  is not strictly after the current time (`Validator.verifyExpiresAt`
  requires `cmp.Before(exp)`).
* Times are unix seconds as `Int`.
* The storage collaborator is modelled as a total map
  `String → Option Wallet`; I/O failures of the collaborator are out of
  scope of the claims treated here.
* Cryptographic primitives (SHA-256, ECDSA key construction, public-key
  and address derivation, big-endian base64url decoding) are external
  library calls and are passed in as explicit function parameters.
-/

/-- Failure causes of the `golang-jwt/v5` parse stage
(structure, algorithm and key resolution, signature, library claim
validation).  `keyFetchFailed` is the case where the key lookup had to
refresh the JWKS and the fetch failed. -/
inductive ParseFail
  | malformed
  | wrongAlg
  | missingKid
  | keyFetchFailed
  | keyNotFound
  | badSignature
  | expiredClaim
  | invalidExpType
  deriving DecidableEq, Repr

namespace Runtime

/-- `CognitoTokenClaims` from `src/runtime/auth.go`.  `jwt.RegisteredClaims`
decodes `aud` into a string slice (a single JSON string becomes a
one-element slice).  Absent string claims decode to `""`, an absent
`email_verified` decodes to `false`, an absent `cognito:groups` to an
empty slice — exactly the Go zero values.  `exp` is modelled as always
present (the claims under verification carry it). -/
structure Claims where
  issuer : String
  audience : List String
  subject : String
  tokenUse : String
  expiresAt : Int
  email : String
  emailVerified : Bool
  name : String
  picture : String
  cognitoGroups : List String
  deriving DecidableEq, Repr

/-- The configuration fields of `Config` (`src/runtime/main.go`) used by
token verification. -/
structure Config where
  cognitoIssuer : String
  cognitoAudience : String
  deriving DecidableEq, Repr

/-- The `Code` field of the `AuthError` values produced by
`VerifyCognitoIDToken` (`src/runtime/auth.go`). -/
inductive AuthCode
  | tokenParseFailed
  | tokenInvalid
  | claimsExtractionFailed
  | invalidIssuer
  | invalidAudience
  | invalidTokenUse
  | tokenExpired
  | missingSubject
  deriving DecidableEq, Repr

/-- `jwt.ParseWithClaims` as called at `src/runtime/auth.go:81`: the
structural/signature stage is the abstracted `pf`, after which the
library's default validation checks that the current time is strictly
before `exp` (zero leeway). -/
def parseWithClaims (pf : Option ParseFail) (now : Int) (c : Claims) :
    Except ParseFail Claims :=
  match pf with
  | some f => .error f
  | none => if now < c.expiresAt then .ok c else .error .expiredClaim

/-- `VerifyCognitoIDToken` (`src/runtime/auth.go:79-143`).  Any parse
failure is wrapped into the code `TOKEN_PARSE_FAILED`; after a
successful parse `token.Valid` is true and the claims cast succeeds, so
the `TOKEN_INVALID` and `CLAIMS_EXTRACTION_FAILED` branches are not
reachable; the remaining checks run in source order.  The expiration
check at lines 125-129 is `time.Now().After(claims.ExpiresAt.Time)`,
which fails only when `now` is strictly greater than `exp`. -/
def VerifyCognitoIDToken (cfg : Config) (now : Int) (pf : Option ParseFail)
    (c : Claims) : Except AuthCode Claims :=
  match parseWithClaims pf now c with
  | .error _ => .error .tokenParseFailed
  | .ok c =>
    if c.issuer ≠ cfg.cognitoIssuer then .error .invalidIssuer
    else if ¬ (c.audience.any (fun aud => aud = cfg.cognitoAudience)) then
      .error .invalidAudience
    else if c.tokenUse ≠ "id" then .error .invalidTokenUse
    else if c.expiresAt < now then .error .tokenExpired
    else if c.subject = "" then .error .missingSubject
    else .ok c

end Runtime

namespace CognitoModule

/-- The shape of the `aud` entry of the `jwt.MapClaims` decoded by
`verifyCognitoIDToken` (`src/cognito_module/jwt.go:208-220`): a JSON
string, a JSON array (whose elements may or may not be strings), or
absent/of another type. -/
inductive AudClaim
  | str (s : String)
  | arr (elems : List (Option String))
  | absent
  deriving DecidableEq, Repr

/-- The audience string the check at `src/cognito_module/jwt.go:208-220`
compares against the configured audience: the claim itself when it is a
string; for a non-empty array, the first element when that element is a
string; in every other case `aud` keeps its zero value `""`. -/
def audClaimString (a : AudClaim) : String :=
  match a with
  | .str s => s
  | .arr [] => ""
  | .arr (some s :: _) => s
  | .arr (none :: _) => ""
  | .absent => ""

/-- The `exp` entry of the `jwt.MapClaims`: absent, present with a
non-numeric dynamic type, or a number (JSON numbers decode to
float64; integral seconds are modelled). -/
inductive ExpClaim
  | absent
  | wrongType
  | num (e : Int)
  deriving DecidableEq, Repr

/-- The `jwt.MapClaims` entries read by the cognito_module verifier.
For the other claims, `none` models an absent claim or one of the
wrong dynamic type. -/
structure Claims where
  iss : Option String
  aud : AudClaim
  tokenUse : Option String
  exp : ExpClaim
  sub : Option String
  deriving DecidableEq, Repr

/-- The `Issuer` and `Audience` fields of `CognitoConfig`
(`src/unnamed/part_004`). -/
structure Config where
  issuer : String
  audience : String
  deriving DecidableEq, Repr

/-- Errors of `verifyCognitoIDToken` (`src/cognito_module/jwt.go`),
one constructor per `fmt.Errorf` site. -/
inductive VerifyError
  | parseVerifyFailed
  | invalidToken
  | claimsExtractFailed
  | invalidIssuer
  | invalidAudience
  | invalidTokenUse
  | missingExp
  | tokenExpired
  deriving DecidableEq, Repr

/-- `jwt.Parse` as called at `src/cognito_module/jwt.go:173`: the
structural/signature/keyfunc stage is the abstracted `pf`; the library's
default validation then reads `exp` through
`MapClaims.parseNumericDate`, which treats an absent `exp` — and a
float64 `exp` equal to 0 — as no claim (optional by default, so the
token passes), errors on an `exp` of the wrong dynamic type, and
otherwise requires `now` strictly before `exp` (zero leeway). -/
def jwtParse (pf : Option ParseFail) (now : Int) (c : Claims) :
    Except ParseFail Claims :=
  match pf with
  | some f => .error f
  | none =>
    match c.exp with
    | .absent => .ok c
    | .wrongType => .error .invalidExpType
    | .num e =>
      if e = 0 then .ok c
      else if now < e then .ok c else .error .expiredClaim

/-- `verifyCognitoIDToken` (`src/cognito_module/jwt.go:171-238`).  Every
parse failure is wrapped into the single error
`failed to parse/verify token`; a parsed token is valid and the claims
cast succeeds, so those two branches are unreachable; then issuer,
audience, token_use and expiration are checked in source order.  The
expiration check at lines 228-235 requires the claim to be a float64
(`claims["exp"].(float64)`, which also succeeds on `exp = 0`) and
fails when `time.Now().Unix() >= int64(exp)`. -/
def verifyCognitoIDToken (cfg : Config) (now : Int) (pf : Option ParseFail)
    (c : Claims) : Except VerifyError Claims :=
  match jwtParse pf now c with
  | .error _ => .error .parseVerifyFailed
  | .ok c =>
    if (match c.iss with
        | some s => decide (s ≠ cfg.issuer)
        | none => true) then .error .invalidIssuer
    else if audClaimString c.aud ≠ cfg.audience then .error .invalidAudience
    else if c.tokenUse ≠ some "id" then .error .invalidTokenUse
    else
      match c.exp with
      | .num e => if now ≥ e then .error .tokenExpired else .ok c
      | _ => .error .missingExp

end CognitoModule

namespace Runtime

/-- The group-joining loop of `ExtractUserVars`
(`src/runtime/auth.go:166-176`): elements joined with `","` between
successive entries. -/
def joinGroups (gs : List String) : String :=
  (gs.foldl
    (fun (acc : String × Nat) g =>
      (acc.1 ++ (if acc.2 > 0 then "," else "") ++ g, acc.2 + 1))
    ("", 0)).1

/-- `ExtractUserVars` (`src/runtime/auth.go:146-179`), the resulting
`map[string]string` represented as an association list with distinct
keys in insertion order.  `email`, `name` and `picture` are set only
when non-empty and `cognito_groups` only when the slice is non-empty,
but `email_verified` and `provider` are set unconditionally. -/
def ExtractUserVars (c : Claims) : List (String × String) :=
  (if c.email ≠ "" then [("email", c.email)] else []) ++
  [("email_verified", if c.emailVerified then "true" else "false")] ++
  (if c.name ≠ "" then [("name", c.name)] else []) ++
  (if c.picture ≠ "" then [("picture", c.picture)] else []) ++
  [("provider", "cognito")] ++
  (if c.cognitoGroups ≠ [] then
    [("cognito_groups", joinGroups c.cognitoGroups)] else [])

/-- The `Wallet` record persisted by the runtime module
(`src/runtime/main.go:460-464`), `createdAt` in epoch milliseconds. -/
structure Wallet where
  chain : String
  address : String
  createdAt : Int
  deriving DecidableEq, Repr

/-- The wallet-related fields of `Config` (`src/runtime/main.go`). -/
structure WalletConfig where
  walletEnabled : Bool
  walletChain : String
  walletMasterKeyARN : String
  deriving DecidableEq, Repr

/-- The error values the wallet path of the runtime module can return
(`src/runtime/errors.go` sentinels plus the propagated derivation
failure). -/
inductive WalletError
  | walletNotEnabled
  | invalidChain
  | deriveFailed
  | walletNotFound
  deriving DecidableEq, Repr

/-- `deriveWalletAddress` (`src/runtime/main.go:572-595`).  The EVM
derivation itself (`deriveEVMAddress`) is passed in as `deriveEVM`; the
returned flag records whether it was invoked.  Both the `"solana"` arm
and the default arm return `ErrInvalidChain`. -/
def deriveWalletAddress (deriveEVM : String → Except Unit String)
    (cfg : WalletConfig) (externalID : String) :
    Except WalletError String × Bool :=
  match cfg.walletChain with
  | "evm" =>
    (match deriveEVM externalID with
     | .ok a => .ok a
     | .error _ => .error .deriveFailed, true)
  | "solana" => (.error .invalidChain, false)
  | _ => (.error .invalidChain, false)

/-- Result of one `ensureWallet` call: the returned value, the storage
state after the call (collection `wallet`, keyed by external ID), and
whether address derivation was performed. -/
structure EnsureOutcome where
  result : Except WalletError Wallet
  store : String → Option Wallet
  derived : Bool

/-- `ensureWallet` (`src/runtime/main.go:468-540`): reject when the
wallet feature is disabled; return an existing record unchanged; else
derive an address for the configured chain, build the record with the
current timestamp and persist it under the external ID. -/
def ensureWallet (deriveEVM : String → Except Unit String)
    (cfg : WalletConfig) (now : Int) (store : String → Option Wallet)
    (externalID : String) : EnsureOutcome :=
  if ¬ cfg.walletEnabled then ⟨.error .walletNotEnabled, store, false⟩
  else
    match store externalID with
    | some w => ⟨.ok w, store, false⟩
    | none =>
      match deriveWalletAddress deriveEVM cfg externalID with
      | (.error e, d) => ⟨.error e, store, d⟩
      | (.ok address, d) =>
        let w : Wallet := ⟨cfg.walletChain, address, now⟩
        ⟨.ok w, fun k => if k = externalID then some w else store k, d⟩

/-- `getWallet` (`src/runtime/main.go:543-568`): read-only lookup,
`ErrWalletNotFound` when no record exists. -/
def getWallet (store : String → Option Wallet) (externalID : String) :
    Except WalletError Wallet :=
  match store externalID with
  | none => .error .walletNotFound
  | some w => .ok w

end Runtime

namespace CognitoModule

/-- A `JWK` entry of the fetched key-set document
(`src/cognito_module/jwt.go:34-41`); only the fields the cache update
reads are modelled. -/
structure JWK where
  kid : String
  kty : String
  n : String
  e : String
  deriving DecidableEq, Repr

/-- `rsa.PublicKey` as built by `jwkToRSAPublicKey`. -/
structure RSAPublicKey where
  n : Nat
  e : Nat
  deriving DecidableEq, Repr

/-- `jwkToRSAPublicKey` (`src/cognito_module/jwt.go:148-168`), the
base64url-to-big-integer decoding abstracted as `decode` (it fails on
invalid input, exactly the two failure exits of the source). -/
def jwkToRSAPublicKey (decode : String → Option Nat) (j : JWK) :
    Option RSAPublicKey :=
  match decode j.n with
  | none => none
  | some nv =>
    match decode j.e with
    | none => none
    | some ev => some ⟨nv, ev⟩

/-- One iteration of the cache-update loop of `fetchJWKS`
(`src/cognito_module/jwt.go:127-139`): skip an entry whose `kty` is not
`"RSA"` or whose conversion fails, otherwise write the converted key
into the cache map under the entry's kid. -/
def fetchJWKSStep (decode : String → Option Nat)
    (c : String → Option RSAPublicKey) (j : JWK) :
    String → Option RSAPublicKey :=
  if j.kty ≠ "RSA" then c
  else
    match jwkToRSAPublicKey decode j with
    | none => c
    | some k => fun kid => if kid = j.kid then some k else c kid

/-- The cache-update loop of `fetchJWKS`
(`src/cognito_module/jwt.go:123-141`) applied to a successfully fetched
and unmarshalled document `keys`: each entry is processed in order by
`fetchJWKSStep`; no entry of the existing cache is ever removed. -/
def fetchJWKSUpdate (decode : String → Option Nat)
    (cache : String → Option RSAPublicKey) (keys : List JWK) :
    String → Option RSAPublicKey :=
  keys.foldl (fetchJWKSStep decode) cache

/-- `WalletRecord` (`src/unnamed/part_005`), `createdAt` in epoch
seconds. -/
structure WalletRecord where
  chain : String
  address : String
  createdAt : Int
  deriving DecidableEq, Repr

/-- One lowercase hex digit. -/
def hexDigit (n : Nat) : Char :=
  if n < 10 then Char.ofNat ('0'.toNat + n)
  else Char.ofNat ('a'.toNat + (n - 10))

/-- `hex.EncodeToString` over a byte list (each input < 256). -/
def hexEncode (bs : List Nat) : String :=
  String.mk (bs.foldr (fun b acc =>
    hexDigit (b / 16 % 16) :: hexDigit (b % 16) :: acc) [])

/-- `deriveAddress` (`src/unnamed/part_005:124-146`): SHA-256 of the
external ID (the hash abstracted as `sha256Fn`, returning the 32-byte
digest), then for `"evm"` the first 20 bytes hex-encoded behind `"0x"`,
for `"solana"` the first 32 bytes hex-encoded, and an
`unsupported chain` error otherwise. -/
def deriveAddress (sha256Fn : String → List Nat)
    (externalID chain : String) : Except Unit String :=
  let hash := sha256Fn externalID
  match chain with
  | "evm" => .ok ("0x" ++ hexEncode (hash.take 20))
  | "solana" => .ok (hexEncode (hash.take 32))
  | _ => .error ()

/-- Errors of the cognito_module wallet path. -/
inductive WalletError
  | walletNotFound
  | deriveFailed
  deriving DecidableEq, Repr

/-- Result of one cognito_module `ensureWallet` call (value, storage
post-state, whether derivation ran). -/
structure EnsureOutcome where
  result : Except WalletError WalletRecord
  store : String → Option WalletRecord
  derived : Bool

/-- `ensureWallet` (`src/unnamed/part_005:40-68`): `readWallet` first,
returning an existing record as-is; on a miss derive an address for the
requested chain, build the record with the current timestamp and
`writeWallet` it. -/
def ensureWallet (sha256Fn : String → List Nat) (now : Int)
    (store : String → Option WalletRecord) (externalID chain : String) :
    EnsureOutcome :=
  match store externalID with
  | some w => ⟨.ok w, store, false⟩
  | none =>
    match deriveAddress sha256Fn externalID chain with
    | .error _ => ⟨.error .deriveFailed, store, true⟩
    | .ok address =>
      let w : WalletRecord := ⟨chain, address, now⟩
      ⟨.ok w, fun k => if k = externalID then some w else store k, true⟩

end CognitoModule

namespace Runtime

/-- The value of a digit character, case-insensitive, as in
`math/big`'s scanner. -/
def digitVal (c : Char) : Option Nat :=
  if '0' ≤ c ∧ c ≤ '9' then some (c.toNat - '0'.toNat)
  else if 'a' ≤ c ∧ c ≤ 'z' then some (c.toNat - 'a'.toNat + 10)
  else if 'A' ≤ c ∧ c ≤ 'Z' then some (c.toNat - 'A'.toNat + 10)
  else none

/-- The digit scanner of `math/big`: digits of base `b`, a single
underscore permitted between successive digits (and between a base
prefix and the first digit, which callers encode by starting with
`canUnderscore = true`); the string must contain at least one digit and
must not end with an underscore. -/
def scanDigits (b : Nat) : List Char → Bool → Nat → Nat → Option Nat
  | [], canUnderscore, acc, count =>
    if 0 < count ∧ canUnderscore then some acc else none
  | c :: rest, canUnderscore, acc, count =>
    if c = '_' then
      if canUnderscore then scanDigits b rest false acc count
      else none
    else
      match digitVal c with
      | some d =>
        if d < b then scanDigits b rest true (acc * b + d) (count + 1)
        else none
      | none => none

/-- `big.Int.SetString(s, 0)` as used at
`src/runtime/evm_signer.go:86-108`: optional sign, then base detection —
`0b`/`0B` binary, `0o`/`0O` octal, `0x`/`0X` hexadecimal, a bare leading
`0` octal, otherwise decimal.  The whole string must be consumed.  Note
that a leading `-` is accepted: `SetString` parses negative numbers. -/
def goBigIntSetString0 (s : String) : Option Int :=
  let cs := s.data
  let signed : Bool × List Char :=
    match cs with
    | '+' :: rest => (false, rest)
    | '-' :: rest => (true, rest)
    | _ => (false, cs)
  let mag : Option Nat :=
    match signed.2 with
    | '0' :: 'b' :: rest => scanDigits 2 rest true 0 0
    | '0' :: 'B' :: rest => scanDigits 2 rest true 0 0
    | '0' :: 'o' :: rest => scanDigits 8 rest true 0 0
    | '0' :: 'O' :: rest => scanDigits 8 rest true 0 0
    | '0' :: 'x' :: rest => scanDigits 16 rest true 0 0
    | '0' :: 'X' :: rest => scanDigits 16 rest true 0 0
    | '0' :: rest => scanDigits 8 rest true 0 1
    | rest => scanDigits 10 rest false 0 0
  match mag with
  | none => none
  | some m => some (if signed.1 then -(m : Int) else (m : Int))

/-- `EVMTransactionRequest` (`src/runtime/evm_signer.go:32-40`); the
source field `To` is called `toAddr` here because `to` is reserved. -/
structure EVMTransactionRequest where
  toAddr : String
  valueWei : String
  data : String
  gasLimit : String
  maxFeePerGasWei : String
  maxPriorityFeePerGasWei : String
  nonce : Nat
  deriving DecidableEq, Repr

/-- Errors of `signAndSendEVMTransaction`, one constructor per
`fmt.Errorf` exit (`src/runtime/evm_signer.go`). -/
inductive TxError
  | missingTo
  | invalidValue
  | invalidGasLimit
  | invalidMaxFeePerGas
  | invalidMaxPriorityFeePerGas
  | signingFailed
  | applySignatureFailed
  deriving DecidableEq, Repr

/-- Result of one `signAndSendEVMTransaction` call together with
whether the KMS signing service was invoked. -/
structure TxOutcome where
  result : Except TxError String
  signerInvoked : Bool
  deriving Repr

/-- `signAndSendEVMTransaction` (`src/runtime/evm_signer.go:66-167`):
require `to`; parse each non-empty numeric string field with
`SetString(s, 0)` (an empty field keeps the zero `big.Int`), failing
before any signing on the first parse failure; then build the
dynamic-fee transaction, compute its signing hash and call the KMS
signer.  Transaction assembly and hashing are go-ethereum library calls,
abstracted as `txHashOf` applied to the signature; the signer call
outcome is the abstracted `signResult`. -/
def signAndSendEVMTransaction (req : EVMTransactionRequest)
    (signResult : Except Unit (List Nat)) (txHashOf : List Nat → String) :
    TxOutcome :=
  if req.toAddr = "" then ⟨.error .missingTo, false⟩
  else
    match (if req.valueWei = "" then some 0
           else goBigIntSetString0 req.valueWei) with
    | none => ⟨.error .invalidValue, false⟩
    | some _value =>
      match (if req.gasLimit = "" then some 0
             else goBigIntSetString0 req.gasLimit) with
      | none => ⟨.error .invalidGasLimit, false⟩
      | some _gasLimit =>
        match (if req.maxFeePerGasWei = "" then some 0
               else goBigIntSetString0 req.maxFeePerGasWei) with
        | none => ⟨.error .invalidMaxFeePerGas, false⟩
        | some _maxFee =>
          match (if req.maxPriorityFeePerGasWei = "" then some 0
                 else goBigIntSetString0 req.maxPriorityFeePerGasWei) with
          | none => ⟨.error .invalidMaxPriorityFeePerGas, false⟩
          | some _maxPriorityFee =>
            match signResult with
            | .error _ => ⟨.error .signingFailed, true⟩
            | .ok signature => ⟨.ok (txHashOf signature), true⟩

/-- `deriveEVMAddress` (`src/runtime/evm_signer.go:44-63`): hash the
seed string `masterKeyARN ++ ":" ++ externalID` with SHA-256, turn the
digest into an ECDSA private key with `crypto.ToECDSA` (which can
fail), and return the address of its public key.  The library
primitives are the parameters `sha256Fn`, `toECDSA`, `pubOf` and
`pubkeyToAddress`. -/
def deriveEVMAddress (sha256Fn : String → Nat) (toECDSA : Nat → Option Nat)
    (pubOf : Nat → Nat) (pubkeyToAddress : Nat → String)
    (cfg : WalletConfig) (externalID : String) : Except Unit String :=
  match toECDSA (sha256Fn (cfg.walletMasterKeyARN ++ ":" ++ externalID)) with
  | none => .error ()
  | some privateKey => .ok (pubkeyToAddress (pubOf privateKey))

namespace MockKMSSigner

/-- `MockKMSSigner.derivePrivateKey` (`src/runtime/kms.go:86-98`): the
same SHA-256 of `masterKeyARN ++ ":" ++ externalID` fed to
`crypto.ToECDSA`. -/
def derivePrivateKey (sha256Fn : String → Nat) (toECDSA : Nat → Option Nat)
    (cfg : WalletConfig) (externalID : String) : Except Unit Nat :=
  match toECDSA (sha256Fn (cfg.walletMasterKeyARN ++ ":" ++ externalID)) with
  | none => .error ()
  | some privateKey => .ok privateKey

/-- `MockKMSSigner.Sign` (`src/runtime/kms.go:55-71`): derive the
deterministic private key and sign the hash with it (`crypto.Sign`
abstracted as `signFn`). -/
def Sign (sha256Fn : String → Nat) (toECDSA : Nat → Option Nat)
    (signFn : Nat → List Nat → List Nat) (cfg : WalletConfig)
    (externalID : String) (hash : List Nat) : Except Unit (List Nat) :=
  match derivePrivateKey sha256Fn toECDSA cfg externalID with
  | .error e => .error e
  | .ok privateKey => .ok (signFn privateKey hash)

end MockKMSSigner

/-- The collaborator outcomes one `rpc_cognito_login` call observes
(`src/runtime/main.go:183-261`): payload decoding, token verification,
`AuthenticateCustom` (session token, user ID, created flag),
`AccountUpdateId`, and `ensureWallet`. -/
structure LoginEnv where
  parseOk : Bool
  verifyResult : Except AuthCode Claims
  authResult : Option (String × String × Bool)
  metadataOk : Bool
  walletResult : Option Wallet

/-- `WalletInfo` (`src/unnamed/part_000`). -/
structure WalletInfo where
  address : String
  chain : String
  deriving DecidableEq, Repr

/-- `LoginResponse` (`src/unnamed/part_000`): the session token and an
optional wallet summary. -/
structure LoginResponse where
  token : String
  wallet : Option WalletInfo
  deriving DecidableEq, Repr

/-- Error exits of `rpcCognitoLogin` (`src/runtime/main.go`). -/
inductive LoginError
  | invalidPayload
  | verifyFailed (e : AuthCode)
  | authFailed
  deriving DecidableEq, Repr

/-- `rpcCognitoLogin` (`src/runtime/main.go:183-261`): parse the
payload, verify the token, authenticate; a metadata-update failure is
only logged; when the wallet feature is enabled, an `ensureWallet`
failure is logged and the response simply omits the wallet, while a
provisioned wallet is attached to the response. -/
def rpcCognitoLogin (walletEnabled : Bool) (env : LoginEnv) :
    Except LoginError LoginResponse :=
  if ¬ env.parseOk then .error .invalidPayload
  else
    match env.verifyResult with
    | .error e => .error (.verifyFailed e)
    | .ok _claims =>
      match env.authResult with
      | none => .error .authFailed
      | some (session, _userId, _created) =>
        if walletEnabled then
          match env.walletResult with
          | none => .ok ⟨session, none⟩
          | some w => .ok ⟨session, some ⟨w.address, w.chain⟩⟩
        else .ok ⟨session, none⟩

/-- The collaborator outcomes one `rpc_link_cognito` call observes
(`src/runtime/main.go:264-320`). -/
structure LinkEnv where
  hasSession : Bool
  parseOk : Bool
  verifyResult : Except AuthCode Claims
  linkOk : Bool
  walletResult : Option Wallet

/-- `LinkResponse` (`src/unnamed/part_000`). -/
structure LinkResponse where
  success : Bool
  wallet : Option WalletInfo
  deriving DecidableEq, Repr

/-- Error exits of `rpcLinkCognito` (`src/runtime/main.go`). -/
inductive LinkError
  | unauthorized
  | invalidPayload
  | verifyFailed (e : AuthCode)
  | linkFailed
  deriving DecidableEq, Repr

/-- `rpcLinkCognito` (`src/runtime/main.go:264-320`): session check,
payload parse, token verification, `LinkCustom`; when the wallet
feature is enabled an `ensureWallet` failure is logged and the response
omits the wallet. -/
def rpcLinkCognito (walletEnabled : Bool) (env : LinkEnv) :
    Except LinkError LinkResponse :=
  if ¬ env.hasSession then .error .unauthorized
  else if ¬ env.parseOk then .error .invalidPayload
  else
    match env.verifyResult with
    | .error e => .error (.verifyFailed e)
    | .ok _claims =>
      if ¬ env.linkOk then .error .linkFailed
      else
        if walletEnabled then
          match env.walletResult with
          | none => .ok ⟨true, none⟩
          | some w => .ok ⟨true, some ⟨w.address, w.chain⟩⟩
        else .ok ⟨true, none⟩

end Runtime

namespace CognitoModule

/-- The collaborator outcomes one cognito_module `rpcCognitoLogin` call
observes (`src/unnamed/part_004:334-415`): payload decoding, the
`id_token` field, token verification, `AuthenticateCustom` (user ID,
resulting username, created flag), `updateUserMetadata`, `ensureWallet`
and `AuthenticateTokenGenerate`. -/
structure LoginEnv where
  parseOk : Bool
  idToken : String
  verifyResult : Except VerifyError Claims
  authResult : Option (String × String × Bool)
  metadataOk : Bool
  walletResult : Option WalletRecord
  tokenGenResult : Option String

/-- `WalletSummary` (`src/unnamed/part_004`). -/
structure WalletSummary where
  address : String
  chain : String
  deriving DecidableEq, Repr

/-- `LoginResponse` (`src/unnamed/part_004`): token plus a mandatory
wallet summary. -/
structure LoginResponse where
  token : String
  wallet : WalletSummary
  deriving DecidableEq, Repr

/-- Error exits of the cognito_module `rpcCognitoLogin`, one
constructor per `fmt.Errorf` return. -/
inductive LoginError
  | invalidPayload
  | idTokenRequired
  | verifyFailed (e : VerifyError)
  | missingSub
  | authFailed
  | ensureWalletFailed
  | tokenGenFailed
  deriving DecidableEq, Repr

/-- `rpcCognitoLogin` (`src/unnamed/part_004:334-415`): parse, require
`id_token`, verify, require a non-empty `sub`, authenticate; a metadata
failure is only logged; then `ensureWallet` — whose failure FAILS the
whole call (`failed to ensure wallet`) — then session-token generation,
and a response that always carries the wallet. -/
def rpcCognitoLogin (env : LoginEnv) : Except LoginError LoginResponse :=
  if ¬ env.parseOk then .error .invalidPayload
  else if env.idToken = "" then .error .idTokenRequired
  else
    match env.verifyResult with
    | .error e => .error (.verifyFailed e)
    | .ok claims =>
      match claims.sub with
      | none => .error .missingSub
      | some s =>
        if s = "" then .error .missingSub
        else
          match env.authResult with
          | none => .error .authFailed
          | some (_userID, _usernameResult, _created) =>
            match env.walletResult with
            | none => .error .ensureWalletFailed
            | some w =>
              match env.tokenGenResult with
              | none => .error .tokenGenFailed
              | some token => .ok ⟨token, ⟨w.address, w.chain⟩⟩

end CognitoModule

/-! Concrete fixtures used by counterexamples and witnesses. -/

/-- Example runtime configuration. -/
def rtCfgEx : Runtime.Config := ⟨"https://idp.example/pool1", "client-abc"⟩

/-- A valid runtime claim set (optional claims all absent, i.e. Go zero
values). -/
def rtClaimsEx : Runtime.Claims :=
  ⟨"https://idp.example/pool1", ["client-abc"], "user-42", "id", 100,
   "", false, "", "", []⟩

/-- The same claim set with `exp = 90`. -/
def rtClaimsExpiredEx : Runtime.Claims :=
  ⟨"https://idp.example/pool1", ["client-abc"], "user-42", "id", 90,
   "", false, "", "", []⟩

/-- Example cognito_module configuration. -/
def cmCfgEx : CognitoModule.Config := ⟨"https://idp.example/pool1", "client-abc"⟩

/-- An audience array whose second (not first) element is the
configured audience. -/
def cmAudListEx : List (Option String) := [some "other-client", some "client-abc"]

/-- A cognito_module claim set that is valid except that its audience
array carries the configured audience in second position. -/
def cmClaimsAudEx : CognitoModule.Claims :=
  ⟨some "https://idp.example/pool1", .arr cmAudListEx, some "id",
   .num 100, some "user-42"⟩

/-- A fully valid cognito_module claim set. -/
def cmClaimsEx : CognitoModule.Claims :=
  ⟨some "https://idp.example/pool1", .str "client-abc", some "id",
   .num 100, some "user-42"⟩

/-- The valid cognito_module claim set with `exp = 90`. -/
def cmClaimsExpiredEx : CognitoModule.Claims :=
  ⟨some "https://idp.example/pool1", .str "client-abc", some "id",
   .num 90, some "user-42"⟩

/-- The valid cognito_module claim set with the special value
`exp = 0`, which the JWT library treats as an absent claim. -/
def cmClaimsExpZeroEx : CognitoModule.Claims :=
  ⟨some "https://idp.example/pool1", .str "client-abc", some "id",
   .num 0, some "user-42"⟩

/-- C1 counterexample fixture: a cognito_module login environment is
not needed; claims and config suffice. -/
theorem c1_counterexample :
    some cmCfgEx.audience ∈ cmAudListEx ∧
    CognitoModule.verifyCognitoIDToken cmCfgEx 0 none cmClaimsAudEx =
      .error .invalidAudience := by
  constructor
  · decide
  · rfl

/-- C1 (amended): in the runtime verifier the audience check accepts
the configured audience in any position of the array, while in the
cognito_module verifier only the first element of an array audience is
compared, so the check there succeeds exactly when that first element
is a string equal to the configured audience. -/
theorem c1_amended (cfgR : Runtime.Config) (cfgC : CognitoModule.Config)
    (now : Int) (c : Runtime.Claims) (d : CognitoModule.Claims)
    (hcR : now < c.expiresAt) (hiR : c.issuer = cfgR.cognitoIssuer)
    (hpC : CognitoModule.jwtParse none now d = .ok d)
    (hiC : d.iss = some cfgC.issuer) :
    (Runtime.VerifyCognitoIDToken cfgR now none c = .error .invalidAudience ↔
      cfgR.cognitoAudience ∉ c.audience) ∧
    (CognitoModule.verifyCognitoIDToken cfgC now none d = .error .invalidAudience ↔
      CognitoModule.audClaimString d.aud ≠ cfgC.audience) := by
  constructor
  · unfold Runtime.VerifyCognitoIDToken Runtime.parseWithClaims
    simp only [if_pos hcR, hiR]
    by_cases hmem : cfgR.cognitoAudience ∈ c.audience
    · have hany : c.audience.any (fun aud => aud = cfgR.cognitoAudience) = true := by
        simp only [List.any_eq_true, decide_eq_true_eq]
        exact ⟨_, hmem, rfl⟩
      simp only [hany]
      constructor
      · intro h
        split_ifs at h <;> simp_all
      · intro h
        exact absurd hmem h
    · have hany : c.audience.any (fun aud => aud = cfgR.cognitoAudience) = false := by
        simp only [List.any_eq_false, decide_eq_true_eq]
        intro x hx hEq
        exact hmem (hEq ▸ hx)
      simp [hany, hmem]
  · unfold CognitoModule.verifyCognitoIDToken
    rw [hpC]
    simp only [hiC]
    by_cases haud : CognitoModule.audClaimString d.aud = cfgC.audience
    · simp only [haud, ne_eq, not_true_eq_false, if_false]
      constructor
      · intro h
        split_ifs at h with h1 h2 <;> simp_all
        · cases hde : d.exp <;> simp [hde] at h
          split at h <;> simp_all
      · intro h
        exact h.elim
    · simp [haud]

/-- C2 counterexample: a token with `exp = now - 10` (all other claims
valid) is rejected by the JWT library during parsing, so both verifiers
return their parse-failure error, not the dedicated TokenExpired
error. -/
theorem c2_counterexample :
    Runtime.VerifyCognitoIDToken rtCfgEx 100 none rtClaimsExpiredEx =
      .error .tokenParseFailed ∧
    Runtime.AuthCode.tokenParseFailed ≠ Runtime.AuthCode.tokenExpired ∧
    CognitoModule.verifyCognitoIDToken cmCfgEx 100 none cmClaimsExpiredEx =
      .error .parseVerifyFailed := by
  refine ⟨rfl, by decide, rfl⟩

/-- C2 (amended): verification succeeds only when `exp` is strictly in
the future (so `exp = now` is rejected).  A token with nonzero
`exp ≤ now` is rejected by the JWT library inside the parse call and
surfaces as the parse-failure error (`TOKEN_PARSE_FAILED`, resp.
`failed to parse/verify token`), not as the dedicated TokenExpired
error; the runtime module's own TokenExpired branch is unreachable.
Only in the cognito_module and only for the special value `exp = 0` —
which the library's `MapClaims` parsing treats as an absent claim —
does the in-repo expiry check fire and return the
`token has expired` (TokenExpired) error. -/
theorem c2_amended (cfgR : Runtime.Config) (cfgC : CognitoModule.Config)
    (now : Int) (pf : Option ParseFail) (c : Runtime.Claims)
    (d : CognitoModule.Claims) (e : Int) (hexp : d.exp = .num e) :
    (∀ r, Runtime.VerifyCognitoIDToken cfgR now pf c = .ok r →
      now < c.expiresAt) ∧
    (c.expiresAt ≤ now →
      Runtime.VerifyCognitoIDToken cfgR now pf c = .error .tokenParseFailed) ∧
    Runtime.VerifyCognitoIDToken cfgR now pf c ≠ .error .tokenExpired ∧
    (∀ r, CognitoModule.verifyCognitoIDToken cfgC now pf d = .ok r → now < e) ∧
    (e ≠ 0 → e ≤ now →
      CognitoModule.verifyCognitoIDToken cfgC now pf d = .error .parseVerifyFailed) ∧
    (pf = none → e = 0 → 0 ≤ now → d.iss = some cfgC.issuer →
      CognitoModule.audClaimString d.aud = cfgC.audience →
      d.tokenUse = some "id" →
      CognitoModule.verifyCognitoIDToken cfgC now pf d = .error .tokenExpired) := by
  have hCMnum : CognitoModule.jwtParse none now d =
      (if e = 0 then .ok d
       else if now < e then .ok d else .error .expiredClaim) := by
    simp only [CognitoModule.jwtParse, hexp]
  refine ⟨?_, ?_, ?_, ?_, ?_, ?_⟩
  · intro r h
    cases pf with
    | some f =>
      simp [Runtime.VerifyCognitoIDToken, Runtime.parseWithClaims] at h
    | none =>
      by_cases hR : now < c.expiresAt
      · exact hR
      · have hP : Runtime.parseWithClaims none now c = .error .expiredClaim := by
          simp only [Runtime.parseWithClaims, if_neg hR]
        simp [Runtime.VerifyCognitoIDToken, hP] at h
  · intro hle
    cases pf with
    | some f => rfl
    | none =>
      have hP : Runtime.parseWithClaims none now c = .error .expiredClaim := by
        simp only [Runtime.parseWithClaims,
          if_neg (by omega : ¬ now < c.expiresAt)]
      simp [Runtime.VerifyCognitoIDToken, hP]
  · cases pf with
    | some f => simp [Runtime.VerifyCognitoIDToken, Runtime.parseWithClaims]
    | none =>
      by_cases hR : now < c.expiresAt
      · have hP : Runtime.parseWithClaims none now c = .ok c := by
          simp only [Runtime.parseWithClaims, if_pos hR]
        simp only [Runtime.VerifyCognitoIDToken, hP]
        split_ifs <;> simp_all <;> omega
      · have hP : Runtime.parseWithClaims none now c = .error .expiredClaim := by
          simp only [Runtime.parseWithClaims, if_neg hR]
        simp [Runtime.VerifyCognitoIDToken, hP]
  · intro r h
    cases pf with
    | some f =>
      simp [CognitoModule.verifyCognitoIDToken, CognitoModule.jwtParse] at h
    | none =>
      by_cases he0 : e = 0
      · subst he0
        rw [if_pos rfl] at hCMnum
        simp only [CognitoModule.verifyCognitoIDToken, hCMnum, hexp] at h
        split_ifs at h <;> simp_all <;> omega
      · rw [if_neg he0] at hCMnum
        by_cases hC : now < e
        · exact hC
        · rw [if_neg hC] at hCMnum
          simp [CognitoModule.verifyCognitoIDToken, hCMnum] at h
  · intro hne hle
    cases pf with
    | some f => rfl
    | none =>
      rw [if_neg hne, if_neg (by omega : ¬ now < e)] at hCMnum
      simp [CognitoModule.verifyCognitoIDToken, hCMnum]
  · intro hpf he0 hnow hiss haud huse
    subst hpf
    subst he0
    rw [if_pos rfl] at hCMnum
    simp [CognitoModule.verifyCognitoIDToken, hCMnum, hexp, hiss, haud,
      huse, hnow]

/-- C5 counterexample: a key-fetch failure during verification and a
bad signature produce the very same error value (`TOKEN_PARSE_FAILED`),
so no distinct KeyFetchFailure kind reaches the caller. -/
theorem c5_counterexample :
    Runtime.VerifyCognitoIDToken rtCfgEx 0 (some .keyFetchFailed) rtClaimsEx =
      Runtime.VerifyCognitoIDToken rtCfgEx 0 (some .badSignature) rtClaimsEx ∧
    Runtime.VerifyCognitoIDToken rtCfgEx 0 (some .keyFetchFailed) rtClaimsEx =
      .error .tokenParseFailed := by
  exact ⟨rfl, rfl⟩

/-- C5 (amended): in both modules a key-fetch failure during
verification is wrapped into the same parse-failure error as a bad
signature — `TOKEN_PARSE_FAILED` in the runtime module and
`failed to parse/verify token` in the cognito_module — so the caller
cannot distinguish the two kinds (the `ErrJWKSFetch` sentinel of
`src/runtime/errors.go` is never attached during verification). -/
theorem c5_amended (cfgR : Runtime.Config) (cfgC : CognitoModule.Config)
    (now : Int) (c : Runtime.Claims) (d : CognitoModule.Claims) :
    Runtime.VerifyCognitoIDToken cfgR now (some .keyFetchFailed) c =
      .error .tokenParseFailed ∧
    Runtime.VerifyCognitoIDToken cfgR now (some .badSignature) c =
      .error .tokenParseFailed ∧
    CognitoModule.verifyCognitoIDToken cfgC now (some .keyFetchFailed) d =
      .error .parseVerifyFailed ∧
    CognitoModule.verifyCognitoIDToken cfgC now (some .badSignature) d =
      .error .parseVerifyFailed := by
  exact ⟨rfl, rfl, rfl, rfl⟩

/-- A cognito_module login environment in which the token verifies, the
account authenticates, and only `ensureWallet` fails. -/
def cmLoginEnvEx : CognitoModule.LoginEnv :=
  ⟨true, "token123", .ok cmClaimsEx, some ("uid-1", "alice", true), true,
   none, some "session-1"⟩

/-- C3 counterexample: in the cognito_module `rpcCognitoLogin`, when
verification and authentication succeed but wallet provisioning fails,
the whole login fails with `failed to ensure wallet` instead of
returning a session without wallet data. -/
theorem c3_counterexample :
    cmLoginEnvEx.verifyResult = .ok cmClaimsEx ∧
    cmLoginEnvEx.authResult = some ("uid-1", "alice", true) ∧
    cmLoginEnvEx.walletResult = none ∧
    CognitoModule.rpcCognitoLogin cmLoginEnvEx = .error .ensureWalletFailed := by
  exact ⟨rfl, rfl, rfl, rfl⟩

/-- C3 (amended): in the runtime module, login and link degrade
gracefully — when verification and authentication succeed but
`ensureWallet` fails, the call still returns successfully with a
session token (resp. success flag) and simply omits the wallet.  In
the cognito_module, the same situation fails the whole login call. -/
theorem c3_amended
    (wE : Runtime.LoginEnv) (lE : Runtime.LinkEnv) (cE : CognitoModule.LoginEnv)
    (c c2 : Runtime.Claims) (d : CognitoModule.Claims)
    (session userId s uid2 uname2 : String) (created created2 : Bool)
    (h1 : wE.parseOk = true) (h2 : wE.verifyResult = .ok c)
    (h3 : wE.authResult = some (session, userId, created))
    (h4 : wE.walletResult = none)
    (h5 : lE.hasSession = true) (h6 : lE.parseOk = true)
    (h7 : lE.verifyResult = .ok c2) (h8 : lE.linkOk = true)
    (h9 : lE.walletResult = none)
    (h10 : cE.parseOk = true) (h11 : cE.idToken ≠ "")
    (h12 : cE.verifyResult = .ok d) (h13 : d.sub = some s) (h14 : s ≠ "")
    (h15 : cE.authResult = some (uid2, uname2, created2))
    (h16 : cE.walletResult = none) :
    Runtime.rpcCognitoLogin true wE = .ok ⟨session, none⟩ ∧
    Runtime.rpcLinkCognito true lE = .ok ⟨true, none⟩ ∧
    CognitoModule.rpcCognitoLogin cE = .error .ensureWalletFailed := by
  refine ⟨?_, ?_, ?_⟩
  · unfold Runtime.rpcCognitoLogin
    simp [h1, h2, h3, h4]
  · unfold Runtime.rpcLinkCognito
    simp [h5, h6, h7, h8, h9]
  · unfold CognitoModule.rpcCognitoLogin
    simp [h10, h11, h12, h13, h14, h15, h16]

/-- An old cached RSA key. -/
def oldKeyEx : CognitoModule.RSAPublicKey := ⟨5, 3⟩

/-- A cache state holding one key under kid `old-kid`. -/
def cacheEx : String → Option CognitoModule.RSAPublicKey :=
  fun kid => if kid = "old-kid" then some oldKeyEx else none

/-- A freshly fetched key-set document containing only kid `new-kid`. -/
def newKeysEx : List CognitoModule.JWK := [⟨"new-kid", "RSA", "nn", "ee"⟩]

/-- A decoder that succeeds on every input. -/
def decodeEx : String → Option Nat := fun s => some s.length

/-- C4 counterexample: refreshing a cache that holds `old-kid` with a
document that contains only `new-kid` keeps the old key in the cache —
the update is a merge, not a wholesale replacement. -/
theorem c4_counterexample :
    CognitoModule.fetchJWKSUpdate decodeEx cacheEx newKeysEx "old-kid" =
      some oldKeyEx ∧
    newKeysEx.all (fun j => j.kid ≠ "old-kid") = true := by
  exact ⟨rfl, by decide⟩

/-- C4 (amended): on each successful refresh, `fetchJWKS` inserts or
overwrites the convertible RSA entries of the fetched document into the
existing cache map; a cached key whose kid does not appear among those
entries survives the refresh unchanged. -/
theorem c4_amended (decode : String → Option Nat)
    (cache : String → Option CognitoModule.RSAPublicKey)
    (keys : List CognitoModule.JWK) (kid : String)
    (h : ∀ j ∈ keys, j.kid ≠ kid ∨ j.kty ≠ "RSA" ∨
      CognitoModule.jwkToRSAPublicKey decode j = none) :
    CognitoModule.fetchJWKSUpdate decode cache keys kid = cache kid := by
  have hstep : ∀ (c : String → Option CognitoModule.RSAPublicKey)
      (j : CognitoModule.JWK), (j.kid ≠ kid ∨ j.kty ≠ "RSA" ∨
        CognitoModule.jwkToRSAPublicKey decode j = none) →
      CognitoModule.fetchJWKSStep decode c j kid = c kid := by
    intro c j hj
    unfold CognitoModule.fetchJWKSStep
    by_cases hkty : j.kty ≠ "RSA"
    · simp [hkty]
    · simp only [hkty, if_false]
      cases hc : CognitoModule.jwkToRSAPublicKey decode j with
      | none => rfl
      | some k =>
        rcases hj with hkid | hkty2 | hconv
        · exact if_neg (fun hEq => hkid hEq.symm)
        · exact absurd hkty2 (not_not_intro (not_not.mp hkty))
        · exact absurd hc (hconv ▸ (by simp))
  induction keys generalizing cache with
  | nil => rfl
  | cons j rest ih =>
    have hj := h j (List.mem_cons_self j rest)
    have hrest : ∀ j' ∈ rest, j'.kid ≠ kid ∨ j'.kty ≠ "RSA" ∨
        CognitoModule.jwkToRSAPublicKey decode j' = none :=
      fun j' hj' => h j' (List.mem_cons_of_mem j hj')
    calc CognitoModule.fetchJWKSUpdate decode cache (j :: rest) kid
        = CognitoModule.fetchJWKSUpdate decode
            (CognitoModule.fetchJWKSStep decode cache j) rest kid := rfl
      _ = CognitoModule.fetchJWKSStep decode cache j kid := ih _ hrest
      _ = cache kid := hstep cache j hj

/-- A signAndSend request whose `valueWei` is negative and whose other
numeric fields are valid. -/
def negReqEx : Runtime.EVMTransactionRequest :=
  ⟨"0xabc", "-1", "", "21000", "1000000000", "1000000000", 0⟩

/-- C6 counterexample: `big.Int.SetString` with base 0 parses the
negative string `-1`, so a request with `valueWei = "-1"` passes
validation, the signing service IS invoked, and the call succeeds
instead of failing with InvalidPayload. -/
theorem c6_counterexample :
    Runtime.goBigIntSetString0 "-1" = some (-1) ∧
    (Runtime.signAndSendEVMTransaction negReqEx (.ok [1])
      (fun _ => "0xhash")).signerInvoked = true ∧
    (Runtime.signAndSendEVMTransaction negReqEx (.ok [1])
      (fun _ => "0xhash")).result = .ok "0xhash" := by
  refine ⟨rfl, rfl, rfl⟩

/-- C6 (amended): every non-empty numeric string field must parse under
`SetString(s, 0)` before the signing service can be invoked — a
non-numeric field is rejected first with a plain `invalid ...` error
(not the `INVALID_PAYLOAD` code, which is used only for JSON decoding
failures) — but negative values are accepted by the parser and signing
proceeds. -/
theorem c6_amended (req : Runtime.EVMTransactionRequest)
    (sr : Except Unit (List Nat)) (f : List Nat → String)
    (h : (Runtime.signAndSendEVMTransaction req sr f).signerInvoked = true) :
    (req.valueWei = "" ∨ (Runtime.goBigIntSetString0 req.valueWei).isSome = true) ∧
    (req.gasLimit = "" ∨ (Runtime.goBigIntSetString0 req.gasLimit).isSome = true) ∧
    (req.maxFeePerGasWei = "" ∨
      (Runtime.goBigIntSetString0 req.maxFeePerGasWei).isSome = true) ∧
    (req.maxPriorityFeePerGasWei = "" ∨
      (Runtime.goBigIntSetString0 req.maxPriorityFeePerGasWei).isSome = true) := by
  unfold Runtime.signAndSendEVMTransaction at h
  by_cases h0 : req.toAddr = ""
  · simp [h0] at h
  · simp only [h0, if_false] at h
    cases hv : (if req.valueWei = "" then some 0
        else Runtime.goBigIntSetString0 req.valueWei) with
    | none => rw [hv] at h; simp at h
    | some v =>
      rw [hv] at h
      cases hg : (if req.gasLimit = "" then some 0
          else Runtime.goBigIntSetString0 req.gasLimit) with
      | none => rw [hg] at h; simp at h
      | some g =>
        rw [hg] at h
        cases hm : (if req.maxFeePerGasWei = "" then some 0
            else Runtime.goBigIntSetString0 req.maxFeePerGasWei) with
        | none => rw [hm] at h; simp at h
        | some m =>
          rw [hm] at h
          cases hp : (if req.maxPriorityFeePerGasWei = "" then some 0
              else Runtime.goBigIntSetString0 req.maxPriorityFeePerGasWei) with
          | none => rw [hp] at h; simp at h
          | some p =>
            refine ⟨?_, ?_, ?_, ?_⟩
            · by_cases he : req.valueWei = ""
              · exact Or.inl he
              · rw [if_neg he] at hv; exact Or.inr (by simp [hv])
            · by_cases he : req.gasLimit = ""
              · exact Or.inl he
              · rw [if_neg he] at hg; exact Or.inr (by simp [hg])
            · by_cases he : req.maxFeePerGasWei = ""
              · exact Or.inl he
              · rw [if_neg he] at hm; exact Or.inr (by simp [hm])
            · by_cases he : req.maxPriorityFeePerGasWei = ""
              · exact Or.inl he
              · rw [if_neg he] at hp; exact Or.inr (by simp [hp])

/-- A request in which every numeric field is valid. -/
def validReqEx : Runtime.EVMTransactionRequest :=
  ⟨"0xabc", "0x1", "", "", "", "", 0⟩

/-- Witness for `c6_amended` at a concrete request on which the signer
is invoked. -/
theorem c6_amended_witness :
    (Runtime.signAndSendEVMTransaction validReqEx (.ok [])
      (fun _ => "h")).signerInvoked = true ∧
    ((validReqEx.valueWei = "" ∨
      (Runtime.goBigIntSetString0 validReqEx.valueWei).isSome = true) ∧
    (validReqEx.gasLimit = "" ∨
      (Runtime.goBigIntSetString0 validReqEx.gasLimit).isSome = true) ∧
    (validReqEx.maxFeePerGasWei = "" ∨
      (Runtime.goBigIntSetString0 validReqEx.maxFeePerGasWei).isSome = true) ∧
    (validReqEx.maxPriorityFeePerGasWei = "" ∨
      (Runtime.goBigIntSetString0 validReqEx.maxPriorityFeePerGasWei).isSome = true)) :=
  ⟨rfl, c6_amended validReqEx (.ok []) (fun _ => "h") rfl⟩

/-- C7: when a wallet record already exists for the external identity,
`ensureWallet` returns it unchanged, performs no address derivation and
issues no storage write (the post-state is the pre-state), in both the
runtime module and the cognito_module; consequently a second call on
the resulting state returns the same record — identical address and
chain — again without derivation. -/
theorem c7_ensureWallet_idempotent
    (dEVM : String → Except Unit String) (cfg : Runtime.WalletConfig)
    (now now2 : Int) (store : String → Option Runtime.Wallet)
    (externalID : String) (w : Runtime.Wallet)
    (sha : String → List Nat) (now3 : Int)
    (store2 : String → Option CognitoModule.WalletRecord)
    (externalID2 chain2 : String) (w2 : CognitoModule.WalletRecord)
    (hen : cfg.walletEnabled = true)
    (hw : store externalID = some w)
    (hw2 : store2 externalID2 = some w2) :
    Runtime.ensureWallet dEVM cfg now store externalID = ⟨.ok w, store, false⟩ ∧
    Runtime.ensureWallet dEVM cfg now2
      (Runtime.ensureWallet dEVM cfg now store externalID).store externalID =
      ⟨.ok w, store, false⟩ ∧
    CognitoModule.ensureWallet sha now3 store2 externalID2 chain2 =
      ⟨.ok w2, store2, false⟩ := by
  have h1 : Runtime.ensureWallet dEVM cfg now store externalID =
      ⟨.ok w, store, false⟩ := by
    unfold Runtime.ensureWallet
    simp [hen, hw]
  refine ⟨h1, ?_, ?_⟩
  · rw [h1]
    unfold Runtime.ensureWallet
    simp [hen, hw]
  · unfold CognitoModule.ensureWallet
    simp [hw2]

/-- An existing runtime wallet record. -/
def rtWalletEx : Runtime.Wallet := ⟨"evm", "0xaddr", 1000⟩

/-- An existing cognito_module wallet record. -/
def cmWalletEx : CognitoModule.WalletRecord := ⟨"evm", "0xaddr2", 7⟩

/-- A runtime storage state holding `rtWalletEx`. -/
def rtStoreEx : String → Option Runtime.Wallet :=
  fun k => if k = "cognito:user-42" then some rtWalletEx else none

/-- A cognito_module storage state holding `cmWalletEx`. -/
def cmStoreEx : String → Option CognitoModule.WalletRecord :=
  fun k => if k = "cognito:user-42" then some cmWalletEx else none

/-- An enabled EVM wallet configuration. -/
def rtWalletCfgEx : Runtime.WalletConfig := ⟨true, "evm", "arn:master"⟩

/-- Witness for `c7_ensureWallet_idempotent` at concrete stores that
already hold a record. -/
theorem c7_witness :
    rtWalletCfgEx.walletEnabled = true ∧
    rtStoreEx "cognito:user-42" = some rtWalletEx ∧
    cmStoreEx "cognito:user-42" = some cmWalletEx ∧
    (Runtime.ensureWallet (fun _ => .ok "0xA") rtWalletCfgEx 5 rtStoreEx
        "cognito:user-42" = ⟨.ok rtWalletEx, rtStoreEx, false⟩ ∧
      Runtime.ensureWallet (fun _ => .ok "0xA") rtWalletCfgEx 6
        (Runtime.ensureWallet (fun _ => .ok "0xA") rtWalletCfgEx 5 rtStoreEx
          "cognito:user-42").store "cognito:user-42" =
        ⟨.ok rtWalletEx, rtStoreEx, false⟩ ∧
      CognitoModule.ensureWallet (fun _ => [0]) 8 cmStoreEx
        "cognito:user-42" "evm" = ⟨.ok cmWalletEx, cmStoreEx, false⟩) :=
  ⟨rfl, rfl, rfl,
   c7_ensureWallet_idempotent (fun _ => .ok "0xA") rtWalletCfgEx 5 6 rtStoreEx
     "cognito:user-42" rtWalletEx (fun _ => [0]) 8 cmStoreEx
     "cognito:user-42" "evm" cmWalletEx rfl rfl rfl⟩

/-- C8: when the configured chain is not `"evm"` (the only implemented
chain) and no record exists for the identity, `ensureWallet` fails with
`ErrInvalidChain` (the UnsupportedChain kind), leaves the storage state
untouched, and a subsequent `getWallet` on that state finds no
record. -/
theorem c8_unsupportedChain
    (dEVM : String → Except Unit String) (cfg : Runtime.WalletConfig)
    (now : Int) (store : String → Option Runtime.Wallet)
    (externalID : String)
    (hen : cfg.walletEnabled = true) (hchain : cfg.walletChain ≠ "evm")
    (hnone : store externalID = none) :
    Runtime.ensureWallet dEVM cfg now store externalID =
      ⟨.error .invalidChain, store, false⟩ ∧
    Runtime.getWallet
      (Runtime.ensureWallet dEVM cfg now store externalID).store externalID =
      .error .walletNotFound := by
  have hda : Runtime.deriveWalletAddress dEVM cfg externalID =
      (.error .invalidChain, false) := by
    unfold Runtime.deriveWalletAddress
    split
    · exact absurd (by assumption) hchain
    · rfl
    · rfl
  have h1 : Runtime.ensureWallet dEVM cfg now store externalID =
      ⟨.error .invalidChain, store, false⟩ := by
    unfold Runtime.ensureWallet
    simp [hen, hnone, hda]
  refine ⟨h1, ?_⟩
  rw [h1]
  unfold Runtime.getWallet
  simp [hnone]

/-- A wallet configuration naming an unsupported chain. -/
def badChainCfgEx : Runtime.WalletConfig := ⟨true, "unsupported-chain", "arn:master"⟩

/-- An empty wallet storage state. -/
def emptyStoreEx : String → Option Runtime.Wallet := fun _ => none

/-- Witness for `c8_unsupportedChain` at a concrete unsupported
chain. -/
theorem c8_witness :
    badChainCfgEx.walletEnabled = true ∧
    badChainCfgEx.walletChain ≠ "evm" ∧
    emptyStoreEx "cognito:user-7" = none ∧
    (Runtime.ensureWallet (fun _ => .ok "0xA") badChainCfgEx 5 emptyStoreEx
        "cognito:user-7" = ⟨.error .invalidChain, emptyStoreEx, false⟩ ∧
      Runtime.getWallet
        (Runtime.ensureWallet (fun _ => .ok "0xA") badChainCfgEx 5 emptyStoreEx
          "cognito:user-7").store "cognito:user-7" = .error .walletNotFound) :=
  ⟨rfl, by decide, rfl,
   c8_unsupportedChain (fun _ => .ok "0xA") badChainCfgEx 5 emptyStoreEx
     "cognito:user-7" rfl (by decide) rfl⟩

/-- C9 counterexample: for a claim set in which every optional claim is
absent (Go zero values), the extracted user-variable map nonetheless
contains the verified-flag entry, defaulted to the placeholder
`"false"`. -/
theorem c9_counterexample :
    rtClaimsEx.email = "" ∧ rtClaimsEx.name = "" ∧
    rtClaimsEx.picture = "" ∧ rtClaimsEx.cognitoGroups = [] ∧
    (Runtime.ExtractUserVars rtClaimsEx).lookup "email_verified" =
      some "false" := by
  refine ⟨rfl, rfl, rfl, rfl, rfl⟩

/-- C9 (amended): `email`, `name`, `picture` and `cognito_groups`
entries exist exactly when the corresponding claim is non-empty and are
never defaulted, but the `email_verified` entry is always present —
`"false"` when the claim is absent or false — and a constant
`provider` entry is always added. -/
theorem c9_amended (c : Runtime.Claims) :
    (Runtime.ExtractUserVars c).lookup "email" =
      (if c.email = "" then none else some c.email) ∧
    (Runtime.ExtractUserVars c).lookup "name" =
      (if c.name = "" then none else some c.name) ∧
    (Runtime.ExtractUserVars c).lookup "picture" =
      (if c.picture = "" then none else some c.picture) ∧
    (Runtime.ExtractUserVars c).lookup "cognito_groups" =
      (if c.cognitoGroups = [] then none
       else some (Runtime.joinGroups c.cognitoGroups)) ∧
    (Runtime.ExtractUserVars c).lookup "email_verified" =
      some (if c.emailVerified then "true" else "false") ∧
    (Runtime.ExtractUserVars c).lookup "provider" = some "cognito" := by
  unfold Runtime.ExtractUserVars
  by_cases h1 : c.email = "" <;> by_cases h2 : c.name = "" <;>
    by_cases h3 : c.picture = "" <;> by_cases h4 : c.cognitoGroups = [] <;>
    simp [h1, h2, h3, h4, List.lookup]

/-- C10: the mock signing service and the wallet provisioner derive
from the same seed — the wallet address stored by `ensureWallet` via
`deriveEVMAddress` is the address of the public key of the very private
key `MockKMSSigner.Sign` signs with, for every choice of the crypto
primitives, so signatures correspond to the provisioned address. -/
theorem c10_addressMatchesSigningKey
    (sha256Fn : String → Nat) (toECDSA : Nat → Option Nat)
    (pubOf : Nat → Nat) (pubkeyToAddress : Nat → String)
    (signFn : Nat → List Nat → List Nat) (cfg : Runtime.WalletConfig)
    (externalID : String) (hash : List Nat) (priv : Nat) (now : Int)
    (store : String → Option Runtime.Wallet)
    (h : Runtime.MockKMSSigner.derivePrivateKey sha256Fn toECDSA cfg
        externalID = .ok priv)
    (hen : cfg.walletEnabled = true) (hchain : cfg.walletChain = "evm")
    (hnone : store externalID = none) :
    Runtime.deriveEVMAddress sha256Fn toECDSA pubOf pubkeyToAddress cfg
      externalID = .ok (pubkeyToAddress (pubOf priv)) ∧
    Runtime.MockKMSSigner.Sign sha256Fn toECDSA signFn cfg externalID hash =
      .ok (signFn priv hash) ∧
    (Runtime.ensureWallet
      (Runtime.deriveEVMAddress sha256Fn toECDSA pubOf pubkeyToAddress cfg)
      cfg now store externalID).result =
      .ok ⟨cfg.walletChain, pubkeyToAddress (pubOf priv), now⟩ := by
  unfold Runtime.MockKMSSigner.derivePrivateKey at h
  have htoE : toECDSA (sha256Fn (cfg.walletMasterKeyARN ++ ":" ++ externalID)) =
      some priv := by
    cases hc : toECDSA (sha256Fn (cfg.walletMasterKeyARN ++ ":" ++ externalID)) with
    | none => rw [hc] at h; exact absurd h (by simp)
    | some p => rw [hc] at h; simp at h; rw [h]
  have haddr : Runtime.deriveEVMAddress sha256Fn toECDSA pubOf pubkeyToAddress
      cfg externalID = .ok (pubkeyToAddress (pubOf priv)) := by
    unfold Runtime.deriveEVMAddress
    rw [htoE]
  refine ⟨haddr, ?_, ?_⟩
  · unfold Runtime.MockKMSSigner.Sign Runtime.MockKMSSigner.derivePrivateKey
    rw [htoE]
  · unfold Runtime.ensureWallet
    simp only [hen, hnone, Bool.not_true, Bool.false_eq_true, if_false]
    have hda : Runtime.deriveWalletAddress
        (Runtime.deriveEVMAddress sha256Fn toECDSA pubOf pubkeyToAddress cfg)
        cfg externalID = (.ok (pubkeyToAddress (pubOf priv)), true) := by
      unfold Runtime.deriveWalletAddress
      rw [hchain, haddr]
      rfl
    rw [hda]
    rfl

/-- Witness for `c10_addressMatchesSigningKey` at concrete crypto
primitives. -/
theorem c10_witness :
    Runtime.MockKMSSigner.derivePrivateKey String.length some rtWalletCfgEx
      "cognito:user-42" = .ok 26 ∧
    rtWalletCfgEx.walletEnabled = true ∧
    rtWalletCfgEx.walletChain = "evm" ∧
    emptyStoreEx "cognito:user-42" = none ∧
    (Runtime.deriveEVMAddress String.length some (fun p => p + 1) toString
        rtWalletCfgEx "cognito:user-42" = .ok (toString (26 + 1)) ∧
      Runtime.MockKMSSigner.Sign String.length some (fun p h => p :: h)
        rtWalletCfgEx "cognito:user-42" [9] = .ok (26 :: [9]) ∧
      (Runtime.ensureWallet
        (Runtime.deriveEVMAddress String.length some (fun p => p + 1) toString
          rtWalletCfgEx)
        rtWalletCfgEx 77 emptyStoreEx "cognito:user-42").result =
        .ok ⟨rtWalletCfgEx.walletChain, toString (26 + 1), 77⟩) :=
  ⟨rfl, rfl, rfl, rfl,
   c10_addressMatchesSigningKey String.length some (fun p => p + 1) toString
     (fun p h => p :: h) rtWalletCfgEx "cognito:user-42" [9] 26 77
     emptyStoreEx rfl rfl rfl rfl⟩

/-- Witness for `c1_amended` at concrete configurations and claims. -/
theorem c1_amended_witness :
    ((0 : Int) < rtClaimsEx.expiresAt) ∧
    rtClaimsEx.issuer = rtCfgEx.cognitoIssuer ∧
    CognitoModule.jwtParse none 0 cmClaimsAudEx = .ok cmClaimsAudEx ∧
    cmClaimsAudEx.iss = some cmCfgEx.issuer ∧
    ((Runtime.VerifyCognitoIDToken rtCfgEx 0 none rtClaimsEx =
        .error .invalidAudience ↔
      rtCfgEx.cognitoAudience ∉ rtClaimsEx.audience) ∧
    (CognitoModule.verifyCognitoIDToken cmCfgEx 0 none cmClaimsAudEx =
        .error .invalidAudience ↔
      CognitoModule.audClaimString cmClaimsAudEx.aud ≠ cmCfgEx.audience)) :=
  ⟨by decide, rfl, rfl, rfl,
   c1_amended rtCfgEx cmCfgEx 0 rtClaimsEx cmClaimsAudEx (by decide) rfl rfl rfl⟩

/-- Witness for `c2_amended` at the concrete claim sets, exercising
the `exp = 0` special case of the cognito_module. -/
theorem c2_amended_witness :
    cmClaimsExpZeroEx.exp = .num 0 ∧
    ((∀ r, Runtime.VerifyCognitoIDToken rtCfgEx 100 none rtClaimsEx = .ok r →
        (100 : Int) < rtClaimsEx.expiresAt) ∧
    (rtClaimsEx.expiresAt ≤ 100 →
      Runtime.VerifyCognitoIDToken rtCfgEx 100 none rtClaimsEx =
        .error .tokenParseFailed) ∧
    Runtime.VerifyCognitoIDToken rtCfgEx 100 none rtClaimsEx ≠
      .error .tokenExpired ∧
    (∀ r, CognitoModule.verifyCognitoIDToken cmCfgEx 100 none
        cmClaimsExpZeroEx = .ok r → (100 : Int) < 0) ∧
    ((0 : Int) ≠ 0 → (0 : Int) ≤ 100 →
      CognitoModule.verifyCognitoIDToken cmCfgEx 100 none cmClaimsExpZeroEx =
        .error .parseVerifyFailed) ∧
    ((none : Option ParseFail) = none → (0 : Int) = 0 → (0 : Int) ≤ 100 →
      cmClaimsExpZeroEx.iss = some cmCfgEx.issuer →
      CognitoModule.audClaimString cmClaimsExpZeroEx.aud = cmCfgEx.audience →
      cmClaimsExpZeroEx.tokenUse = some "id" →
      CognitoModule.verifyCognitoIDToken cmCfgEx 100 none cmClaimsExpZeroEx =
        .error .tokenExpired)) :=
  ⟨rfl, c2_amended rtCfgEx cmCfgEx 100 none rtClaimsEx cmClaimsExpZeroEx 0 rfl⟩

/-- A runtime login environment whose wallet provisioning fails. -/
def rtLoginEnvEx : Runtime.LoginEnv :=
  ⟨true, .ok rtClaimsEx, some ("sess-1", "uid-1", true), true, none⟩

/-- A runtime link environment whose wallet provisioning fails. -/
def rtLinkEnvEx : Runtime.LinkEnv :=
  ⟨true, true, .ok rtClaimsEx, true, none⟩

/-- Witness for `c3_amended` at concrete environments. -/
theorem c3_amended_witness :
    rtLoginEnvEx.parseOk = true ∧
    rtLoginEnvEx.verifyResult = .ok rtClaimsEx ∧
    rtLoginEnvEx.authResult = some ("sess-1", "uid-1", true) ∧
    rtLoginEnvEx.walletResult = none ∧
    rtLinkEnvEx.hasSession = true ∧
    rtLinkEnvEx.parseOk = true ∧
    rtLinkEnvEx.verifyResult = .ok rtClaimsEx ∧
    rtLinkEnvEx.linkOk = true ∧
    rtLinkEnvEx.walletResult = none ∧
    cmLoginEnvEx.parseOk = true ∧
    cmLoginEnvEx.idToken ≠ "" ∧
    cmLoginEnvEx.verifyResult = .ok cmClaimsEx ∧
    cmClaimsEx.sub = some "user-42" ∧
    "user-42" ≠ "" ∧
    cmLoginEnvEx.authResult = some ("uid-1", "alice", true) ∧
    cmLoginEnvEx.walletResult = none ∧
    (Runtime.rpcCognitoLogin true rtLoginEnvEx = .ok ⟨"sess-1", none⟩ ∧
      Runtime.rpcLinkCognito true rtLinkEnvEx = .ok ⟨true, none⟩ ∧
      CognitoModule.rpcCognitoLogin cmLoginEnvEx = .error .ensureWalletFailed) :=
  ⟨rfl, rfl, rfl, rfl, rfl, rfl, rfl, rfl, rfl, rfl, by decide, rfl, rfl,
   by decide, rfl, rfl,
   c3_amended rtLoginEnvEx rtLinkEnvEx cmLoginEnvEx rtClaimsEx rtClaimsEx
     cmClaimsEx "sess-1" "uid-1" "user-42" "uid-1" "alice" true true
     rfl rfl rfl rfl rfl rfl rfl rfl rfl rfl (by decide) rfl rfl (by decide)
     rfl rfl⟩

/-- Witness for `c4_amended`: the old key survives a refresh whose
document does not mention its kid. -/
theorem c4_amended_witness :
    (∀ j ∈ newKeysEx, j.kid ≠ "old-kid" ∨ j.kty ≠ "RSA" ∨
      CognitoModule.jwkToRSAPublicKey decodeEx j = none) ∧
    CognitoModule.fetchJWKSUpdate decodeEx cacheEx newKeysEx "old-kid" =
      cacheEx "old-kid" :=
  ⟨by decide,
   c4_amended decodeEx cacheEx newKeysEx "old-kid" (by decide)⟩

